import Mathlib

/-!
Verification of the Car-Scraper repository's ingestion / merge / validate /
audit core against its natural-language specification.

The JavaScript modules are shallowly embedded as Lean functions:

* `RateLimiter` (security/rate-limiter): admission control with adaptive
  backoff.  JS numbers are modelled as `ℚ` (the code only performs exact
  arithmetic: `*2`, `/2`, `*1.5`, `min`, `max`), integer counters as `ℤ`,
  timestamps (`Date.now()` milliseconds) as `ℤ` passed explicitly.
* `SecurityMonitor` (security/monitor): the append-only audit ledger.  The
  mutually recursive `logEvent`/`checkThresholds` pair is embedded with an
  explicit recursion-depth fuel parameter, since the JS recursion is not
  structurally terminating.
* `DataValidator` (security/validator): record validation, sanitization and
  completeness scoring over a typed `CarData` record.
* `mergeCarData` (routes.js) and the `main` per-manufacturer loop (main.js).

`Date.now()` / `new Date().getFullYear()` are passed as explicit parameters
(`now`, `currentYear`); `Math.random` jitter is outside the verified claims.
-/

namespace RateLimiter

/-- Configuration object of `new RateLimiter(config)`; defaults
`{baseDelay: 2000, maxDelay: 10000, jitter: 1000, requestsPerMinute: 30,
concurrentRequests: 5}`. -/
structure Config where
  baseDelay : ℚ
  maxDelay : ℚ
  jitter : ℚ
  requestsPerMinute : ℚ
  concurrentRequests : ℚ
deriving DecidableEq, Repr

/-- The default configuration from the constructor. -/
def defaultConfig : Config :=
  { baseDelay := 2000, maxDelay := 10000, jitter := 1000
    requestsPerMinute := 30, concurrentRequests := 5 }

/-- Mutable state of a `RateLimiter` instance. -/
structure State where
  config : Config
  requestTimestamps : List ℤ
  activeRequests : ℤ
  consecutiveFailures : ℕ
  backoffMultiplier : ℚ
deriving DecidableEq, Repr

/-- Constructor: fresh limiter state for a given configuration. -/
def init (cfg : Config) : State :=
  { config := cfg, requestTimestamps := [], activeRequests := 0
    consecutiveFailures := 0, backoffMultiplier := 1 }

/-- Timestamps strictly inside the trailing 60-second window
(`timestamp > now - 60000`). -/
def recentTimestamps (now : ℤ) (ts : List ℤ) : List ℤ :=
  ts.filter (fun t => now - 60000 < t)

/-- `canMakeRequest()`.  Returns the boolean result together with the state
after the call: the JS method reassigns `this.requestTimestamps` to the
filtered (pruned) list before the per-minute check, but returns early —
without pruning — when the concurrency check fails. -/
def canMakeRequest (now : ℤ) (rl : State) : Bool × State :=
  if rl.config.concurrentRequests ≤ (rl.activeRequests : ℚ) then
    (false, rl)
  else if rl.config.requestsPerMinute ≤
      ((recentTimestamps now rl.requestTimestamps).length : ℚ) then
    (false, { rl with requestTimestamps := recentTimestamps now rl.requestTimestamps })
  else
    (true, { rl with requestTimestamps := recentTimestamps now rl.requestTimestamps })

/-- `addRequestTimestamp()`: push `Date.now()` and increment
`activeRequests`. -/
def addRequestTimestamp (now : ℤ) (rl : State) : State :=
  { rl with requestTimestamps := rl.requestTimestamps ++ [now]
            activeRequests := rl.activeRequests + 1 }

/-- `completeRequest()`: `activeRequests = Math.max(0, activeRequests - 1)`. -/
def completeRequest (rl : State) : State :=
  { rl with activeRequests := max 0 (rl.activeRequests - 1) }

/-- `recordSuccess()`. -/
def recordSuccess (rl : State) : State :=
  { rl with consecutiveFailures := 0, backoffMultiplier := 1 }

/-- `recordFailure()`. -/
def recordFailure (rl : State) : State :=
  { rl with consecutiveFailures := rl.consecutiveFailures + 1 }

/-- `calculateDelay()`: exponential backoff.  Returns the delay and the state
(the method also bumps `backoffMultiplier` when there are consecutive
failures). -/
def calculateDelay (rl : State) : ℚ × State :=
  if 0 < rl.consecutiveFailures then
    (min (rl.config.baseDelay * 2 ^ (min rl.consecutiveFailures 5)) rl.config.maxDelay,
     { rl with backoffMultiplier := min 10 (rl.backoffMultiplier * (3 / 2)) })
  else
    (min rl.config.baseDelay rl.config.maxDelay, rl)

/-- External detection signal for `adaptiveLimit(conditions)`.  A missing
`successRate` is modelled as `none` (in JS, `undefined < 0.5` is `false`). -/
structure Conditions where
  captchaDetected : Bool
  ipBlocked : Bool
  successRate : Option ℚ
deriving DecidableEq, Repr

/-- `adaptiveLimit(conditions)`: mutates the configuration in response to
captcha / IP-block / low-success-rate signals. -/
def adaptiveLimit (c : Conditions) (cfg : Config) : Config :=
  let cfg :=
    if c.captchaDetected then
      { cfg with baseDelay := min (cfg.baseDelay * 2) 10000
                 requestsPerMinute := max 5 (cfg.requestsPerMinute / 2) }
    else cfg
  let cfg :=
    if c.ipBlocked then
      { cfg with baseDelay := 10000, requestsPerMinute := 1 }
    else cfg
  match c.successRate with
  | some r => if r < 1 / 2 then { cfg with baseDelay := min (cfg.baseDelay * (3 / 2)) 5000 } else cfg
  | none => cfg

/-- The state-mutating operations a caller can interleave on a limiter
(`canMakeRequest` is included because it prunes the timestamp window). -/
inductive Op where
  | add (now : ℤ)
  | release
  | check (now : ℤ)
  | success
  | failure
deriving DecidableEq, Repr

/-- Apply one operation to the limiter state. -/
def applyOp (rl : State) : Op → State
  | .add now => addRequestTimestamp now rl
  | .release => completeRequest rl
  | .check now => (canMakeRequest now rl).2
  | .success => recordSuccess rl
  | .failure => recordFailure rl

/-- Run a sequence of operations from a given state. -/
def runOps (ops : List Op) (rl : State) : State :=
  ops.foldl applyOp rl

end RateLimiter

namespace SecurityMonitor

/-- One entry of the audit log.  The random `id`, `sessionId` and the
sanitized `details` map play no role in the threshold logic and are
omitted; the ISO timestamp string is modelled by the underlying
millisecond value it is parsed back to in `checkThresholds`. -/
structure Event where
  eventType : String
  timestamp : ℤ
  severity : ℕ
deriving DecidableEq, Repr

/-- `getEventSeverity(eventType)`: fixed severity table, default 2. -/
def getEventSeverity (t : String) : ℕ :=
  if t = "session_created" then 1
  else if t = "request_made" then 1
  else if t = "retry_attempt" then 2
  else if t = "request_blocked" then 3
  else if t = "captcha_detected" then 3
  else if t = "ip_blocked" then 4
  else if t = "rate_limit_exceeded" then 3
  else if t = "security_violation" then 5
  else 2

/-- Ledger state: the append-only audit log and the incidents list.  The
thresholds are the constructor constants `maxRequestsPerMinute = 30` and
`maxSecurityIncidents = 10`. -/
structure MState where
  auditLog : List Event
  securityIncidents : List Event
deriving DecidableEq, Repr

/-- The append performed at the top of `logEvent` (build the event, push it
onto the audit log, and push it onto the incidents list when its severity
is at least 3). -/
def appendEvent (now : ℤ) (t : String) (s : MState) : MState :=
  let ev : Event := ⟨t, now, getEventSeverity t⟩
  { auditLog := s.auditLog ++ [ev]
    securityIncidents :=
      if 3 ≤ ev.severity then s.securityIncidents ++ [ev] else s.securityIncidents }

/-- Number of `request_made` events whose timestamp lies strictly inside the
trailing 60-second window. -/
def recentRequestCount (now : ℤ) (log : List Event) : ℕ :=
  (log.filter (fun e => e.eventType = "request_made" ∧ now - 60000 < e.timestamp)).length

mutual

/-- `logEvent(eventType, details)`: append the event, then run
`checkThresholds()`.  The first argument is recursion-depth fuel: the JS
pair `logEvent`/`checkThresholds` recurses through itself, so the embedding
returns `none` when the nesting depth exceeds the fuel (the analogue of the
JS call stack overflowing). -/
def logEvent : ℕ → ℤ → String → MState → Option MState
  | 0, _, _, _ => none
  | n + 1, now, t, s => checkThresholds n now (appendEvent now t s)

/-- `checkThresholds()`: if more than 30 `request_made` events are inside the
trailing minute, log a `rate_limit_exceeded` event; afterwards, if more than
10 incidents have accumulated, log a `security_threshold_exceeded` event. -/
def checkThresholds : ℕ → ℤ → MState → Option MState
  | 0, _, _ => none
  | n + 1, now, s =>
    let afterRate : Option MState :=
      if 30 < recentRequestCount now s.auditLog then
        logEvent n now "rate_limit_exceeded" s
      else some s
    match afterRate with
    | none => none
    | some s1 =>
      if 10 < s1.securityIncidents.length then
        logEvent n now "security_threshold_exceeded" s1
      else some s1

end

/-- A ledger that already holds 30 `request_made` events logged inside the
current 60-second window (the state reached after 30 `trackRequest` calls,
projected to the fields the threshold logic reads). -/
def thirtyRequests : MState :=
  { auditLog := List.replicate 30 ⟨"request_made", 1000000, 1⟩
    securityIncidents := [] }

end SecurityMonitor

/-! ## The CarRecord data model

The nested objects of a `CarRecord` are modelled with one `Option` per
schema key: `none` is an absent key, mirroring the partial objects the
sources produce.  JS string/number truthiness (`""` and `0` are falsy) is
made explicit in the helper predicates below. -/

/-- `price` sub-object (`starting_msrp`, `max_price`, `price_range`,
`is_estimated` are the keys the pipeline ever writes). -/
structure PriceData where
  starting_msrp : Option ℚ
  max_price : Option ℚ
  price_range : Option String
  is_estimated : Option Bool
deriving DecidableEq, Repr

/-- `performance` sub-object. -/
structure PerformanceData where
  horsepower : Option ℚ
  torque : Option ℚ
  acceleration_0_60 : Option ℚ
  engine : Option String
deriving DecidableEq, Repr

/-- `specifications` sub-object. -/
structure SpecificationsData where
  transmission : Option String
  drivetrain : Option String
  fuel_type : Option String
deriving DecidableEq, Repr

/-- `dimensions` sub-object. -/
structure DimensionsData where
  length : Option ℚ
  width : Option ℚ
  height : Option ℚ
  wheelbase : Option ℚ
deriving DecidableEq, Repr

/-- `fuel_economy` sub-object. -/
structure FuelEconomyData where
  city : Option ℚ
  highway : Option ℚ
  combined : Option ℚ
deriving DecidableEq, Repr

/-- A car record as passed to `validateCarData` / `mergeCarData`. -/
structure CarData where
  manufacturer : Option String
  model : Option String
  year : Option ℤ
  price : Option PriceData
  performance : Option PerformanceData
  specifications : Option SpecificationsData
  features : Option (List String)
  dimensions : Option DimensionsData
  fuel_economy : Option FuelEconomyData
deriving DecidableEq, Repr

/-- `Object.keys(price).length`. -/
def PriceData.keyCount (p : PriceData) : ℕ :=
  (if p.starting_msrp.isSome then 1 else 0) + (if p.max_price.isSome then 1 else 0) +
  (if p.price_range.isSome then 1 else 0) + (if p.is_estimated.isSome then 1 else 0)

/-- `Object.keys(performance).length`. -/
def PerformanceData.keyCount (p : PerformanceData) : ℕ :=
  (if p.horsepower.isSome then 1 else 0) + (if p.torque.isSome then 1 else 0) +
  (if p.acceleration_0_60.isSome then 1 else 0) + (if p.engine.isSome then 1 else 0)

/-- `Object.keys(specifications).length`. -/
def SpecificationsData.keyCount (p : SpecificationsData) : ℕ :=
  (if p.transmission.isSome then 1 else 0) + (if p.drivetrain.isSome then 1 else 0) +
  (if p.fuel_type.isSome then 1 else 0)

/-- The record with every field absent. -/
def emptyCar : CarData :=
  ⟨none, none, none, none, none, none, none, none, none⟩

namespace DataValidator

/-- JS whitespace class (the ASCII part of `\s`, also used by
`String.prototype.trim`). -/
def jsWs (c : Char) : Bool :=
  c == ' ' || c == '\t' || c == '\n' || c == '\r' || c == Char.ofNat 11 || c == Char.ofNat 12

/-- `s.trim()` on the character list. -/
def jsTrim (l : List Char) : List Char :=
  ((l.dropWhile jsWs).reverse.dropWhile jsWs).reverse

/-- The characters removed by `replace(/[<>"']/g, '')`. -/
def badChar (c : Char) : Bool :=
  c == '<' || c == '>' || c == Char.ofNat 34 || c == Char.ofNat 39

/-- `sanitizeString(input)`: trim, strip angle brackets and quotes, cap at
200 characters. -/
def sanitizeString (s : String) : String :=
  String.mk (((jsTrim s.data).filter (fun c => !badChar c)).take 200)

/-- Case-insensitive "is `pat` a prefix of `l`". -/
def isPrefixCI : List Char → List Char → Bool
  | [], _ => true
  | _ :: _, [] => false
  | p :: ps, c :: cs => p.toLower == c.toLower && isPrefixCI ps cs

/-- Offset of the first case-insensitive occurrence of `pat` in `l`. -/
def findSubCI (pat : List Char) : List Char → Option ℕ
  | [] => if isPrefixCI pat [] then some 0 else none
  | c :: cs => if isPrefixCI pat (c :: cs) then some 0 else (findSubCI pat cs).map (· + 1)

/-- Matcher for a case-insensitive literal pattern (the `/javascript:/gi`,
`/data:/gi`, `/vbscript:/gi` regexes): match length at the head of `l`. -/
def matchLitCI (pat : List Char) (l : List Char) : Option ℕ :=
  if isPrefixCI pat l then some pat.length else none

/-- `\w` (ASCII word character). -/
def isWordChar (c : Char) : Bool :=
  c.isAlphanum || c == '_'

/-- Matcher for `/on\w+\s*=/gi` at the head of `l`.  The regex needs no
backtracking: after the maximal `\w` run and the maximal `\s` run, either
`=` follows or no shorter run can succeed (a shorter `\w` run would have to
be followed by a word character, which is neither `\s` nor `=`). -/
def matchOnHandler : List Char → Option ℕ
  | o :: n :: rest =>
    if o.toLower == 'o' && n.toLower == 'n' then
      let ws := rest.takeWhile isWordChar
      if ws.length == 0 then none
      else
        let rest2 := rest.drop ws.length
        let sp := rest2.takeWhile jsWs
        match rest2.drop sp.length with
        | c :: _ => if c == '=' then some (2 + ws.length + sp.length + 1) else none
        | [] => none
    else none
  | _ => none

/-- Matcher for `/<script\b[^<]*(?:(?!<\/script>)<[^<]*)*<\/script>/gi` at
the head of `l`: `<script` followed by a non-word character (the `\b`),
then everything up to and including the first `</script>`. -/
def matchScriptTag (l : List Char) : Option ℕ :=
  if isPrefixCI "<script".data l then
    match l.drop 7 with
    | [] => none
    | c :: _ =>
      if isWordChar c then none
      else (findSubCI "</script>".data (l.drop 7)).map (fun j => 7 + j + 9)
  else none

/-- One left-to-right pass of `str.replace(pattern, '')` for a global regex:
at each position either delete a match (and continue after it) or keep the
character.  The fuel is the list length; every step consumes at least one
character, so the fuel never runs out when initialised that way. -/
def scanRemove (m : List Char → Option ℕ) : ℕ → List Char → List Char
  | _, [] => []
  | 0, l => l
  | fuel + 1, c :: cs =>
    match m (c :: cs) with
    | some (k + 1) => scanRemove m fuel ((c :: cs).drop (k + 1))
    | _ => c :: scanRemove m fuel cs

/-- `l.replace(pattern, '')` with adequate fuel. -/
def runRemove (m : List Char → Option ℕ) (l : List Char) : List Char :=
  scanRemove m l.length l

/-- The string part of `removeMaliciousContent`: the five regex removals
applied in source order. -/
def cleanString (s : String) : String :=
  let l := runRemove matchScriptTag s.data
  let l := runRemove (matchLitCI "javascript:".data) l
  let l := runRemove matchOnHandler l
  let l := runRemove (matchLitCI "data:".data) l
  let l := runRemove (matchLitCI "vbscript:".data) l
  String.mk l

end DataValidator

namespace DataValidator

/-- JS truthiness of an optional string field (`"" ` is falsy). -/
def truthyStr : Option String → Bool
  | none => false
  | some s => s != ""

/-- JS truthiness of an optional integer field (`0` is falsy). -/
def truthyInt : Option ℤ → Bool
  | none => false
  | some y => y != 0

/-- JS truthiness of an optional numeric field (`0` is falsy). -/
def truthyQ : Option ℚ → Bool
  | none => false
  | some v => v != 0

/-- The required-field test `!field || field.trim() === ''`. -/
def strFieldMissing : Option String → Bool
  | none => true
  | some s => jsTrim s.data == []

/-- `carData.price?.starting_msrp`. -/
def priceMsrp (c : CarData) : Option ℚ :=
  c.price.bind PriceData.starting_msrp

/-- `carData.performance?.horsepower`. -/
def hpOf (c : CarData) : Option ℚ :=
  c.performance.bind PerformanceData.horsepower

/-- `carData.fuel_economy?.combined`. -/
def mpgOf (c : CarData) : Option ℚ :=
  c.fuel_economy.bind FuelEconomyData.combined

/-- The year range error message (it interpolates `currentYear + 2`). -/
def yearErrMsg (currentYear : ℤ) : String :=
  "Year must be between 1990 and " ++ toString (currentYear + 2)

/-- The `errors` list accumulated by `validateCarData`, in push order.
Numbers are exact rationals, so the `isNaN` guards never fire.
`currentYear` stands for `new Date().getFullYear()`. -/
def validateErrors (currentYear : ℤ) (c : CarData) : List String :=
  (if strFieldMissing c.manufacturer then ["Manufacturer is required"] else []) ++
  (if strFieldMissing c.model then ["Model is required"] else []) ++
  (match c.year with
   | some y =>
     if y ≠ 0 then
       if y < 1990 ∨ currentYear + 2 < y then [yearErrMsg currentYear] else []
     else []
   | none => []) ++
  (match priceMsrp c with
   | some p =>
     if p ≠ 0 then
       if p < 0 ∨ 1000000 < p then ["Price must be between 0 and 1,000,000"] else []
     else []
   | none => [])

/-- The `warnings` list accumulated by `validateCarData`, in push order.
A falsy `year` / `price.starting_msrp` lands in the warnings branch, and
out-of-range horsepower / fuel economy are warnings, not errors. -/
def validateWarnings (c : CarData) : List String :=
  (if truthyInt c.year then [] else ["Year is missing"]) ++
  (if truthyQ (priceMsrp c) then [] else ["Price is missing or estimated"]) ++
  (match hpOf c with
   | some h =>
     if h ≠ 0 then
       if h < 0 ∨ 2000 < h then ["Horsepower value seems unrealistic"] else []
     else []
   | none => []) ++
  (match mpgOf c with
   | some g =>
     if g ≠ 0 then
       if g < 0 ∨ 100 < g then ["Fuel economy value seems unrealistic"] else []
     else []
   | none => [])

/-- `removeMaliciousContent(data)`: `cleanData` applied to the record tree —
every string value is run through the five regex removals; numbers,
booleans and object keys are untouched. -/
def removeMaliciousContent (c : CarData) : CarData :=
  { manufacturer := c.manufacturer.map cleanString
    model := c.model.map cleanString
    year := c.year
    price := c.price.map (fun p => { p with price_range := p.price_range.map cleanString })
    performance := c.performance.map (fun p => { p with engine := p.engine.map cleanString })
    specifications := c.specifications.map (fun p =>
      { transmission := p.transmission.map cleanString
        drivetrain := p.drivetrain.map cleanString
        fuel_type := p.fuel_type.map cleanString })
    features := c.features.map (List.map cleanString)
    dimensions := c.dimensions
    fuel_economy := c.fuel_economy }

/-- The sanitized `data` produced by `validateCarData`: `sanitizeString` on
a truthy manufacturer / model, then `removeMaliciousContent` on the whole
record. -/
def sanitizeRecord (c : CarData) : CarData :=
  let c1 := if truthyStr c.manufacturer
            then { c with manufacturer := c.manufacturer.map sanitizeString } else c
  let c2 := if truthyStr c1.model
            then { c1 with model := c1.model.map sanitizeString } else c1
  removeMaliciousContent c2

/-- `calculateValidationScore(carData)`: weighted completeness, capped at
100.  `price` / `performance` / `specifications` additionally require at
least one key; `features` (an array) and `dimensions` (an object) are
truthy whenever present. -/
def calculateValidationScore (c : CarData) : ℕ :=
  let score :=
    (if truthyStr c.manufacturer then 15 else 0) +
    (if truthyStr c.model then 15 else 0) +
    (if truthyInt c.year then 10 else 0) +
    (match c.price with
     | some p => if 0 < p.keyCount then 20 else 0
     | none => 0) +
    (match c.performance with
     | some p => if 0 < p.keyCount then 15 else 0
     | none => 0) +
    (match c.specifications with
     | some p => if 0 < p.keyCount then 10 else 0
     | none => 0) +
    (if c.features.isSome then 10 else 0) +
    (if c.dimensions.isSome then 5 else 0)
  min 100 score

/-- The result object of `validateCarData`. -/
structure ValidationResult where
  valid : Bool
  errors : List String
  warnings : List String
  data : CarData
  score : ℕ
deriving DecidableEq, Repr

/-- `validateCarData(carData)` (the recomputation path; the content-hash
cache only replays a previously computed result for an identical input, so
it is not part of the value-level semantics). -/
def validateCarData (currentYear : ℤ) (c : CarData) : ValidationResult :=
  let errors := validateErrors currentYear c
  let data := sanitizeRecord c
  { valid := errors.isEmpty
    errors := errors
    warnings := validateWarnings c
    data := data
    score := calculateValidationScore data }

/-- The record of spec §8: manufacturer, model, year and
`price.starting_msrp` present, nothing else. -/
def toyotaCamry : CarData :=
  { emptyCar with
      manufacturer := some "Toyota"
      model := some "Camry"
      year := some 2024
      price := some ⟨some 28000, none, none, none⟩ }

/-- `toyotaCamry` with an unrealistic horsepower value. -/
def toyotaCamryHp5000 : CarData :=
  { toyotaCamry with performance := some ⟨some 5000, none, none, none⟩ }

/-- A record whose manufacturer consists only of characters that
`sanitizeString` strips. -/
def angleManufacturer : CarData :=
  { emptyCar with manufacturer := some "<>", model := some "Camry" }

end DataValidator

/-! ## routes.js: merging source fragments -/

namespace Routes

/-- Key-level merge of `{...target, ...source}`: a key present in the
source overwrites the target's. -/
def keyMerge {α : Type} : Option α → Option α → Option α
  | t, none => t
  | _, some v => some v

/-- `{...target.price, ...source.price}`. -/
def mergePrice (t s : PriceData) : PriceData :=
  { starting_msrp := keyMerge t.starting_msrp s.starting_msrp
    max_price := keyMerge t.max_price s.max_price
    price_range := keyMerge t.price_range s.price_range
    is_estimated := keyMerge t.is_estimated s.is_estimated }

/-- `{...target.performance, ...source.performance}`. -/
def mergePerformance (t s : PerformanceData) : PerformanceData :=
  { horsepower := keyMerge t.horsepower s.horsepower
    torque := keyMerge t.torque s.torque
    acceleration_0_60 := keyMerge t.acceleration_0_60 s.acceleration_0_60
    engine := keyMerge t.engine s.engine }

/-- `{...target.specifications, ...source.specifications}`. -/
def mergeSpecifications (t s : SpecificationsData) : SpecificationsData :=
  { transmission := keyMerge t.transmission s.transmission
    drivetrain := keyMerge t.drivetrain s.drivetrain
    fuel_type := keyMerge t.fuel_type s.fuel_type }

/-- `{...target.dimensions, ...source.dimensions}`. -/
def mergeDimensions (t s : DimensionsData) : DimensionsData :=
  { length := keyMerge t.length s.length
    width := keyMerge t.width s.width
    height := keyMerge t.height s.height
    wheelbase := keyMerge t.wheelbase s.wheelbase }

/-- `{...target.fuel_economy, ...source.fuel_economy}`. -/
def mergeFuelEconomy (t s : FuelEconomyData) : FuelEconomyData :=
  { city := keyMerge t.city s.city
    highway := keyMerge t.highway s.highway
    combined := keyMerge t.combined s.combined }

/-- `[...new Set(l)]`: deduplicate keeping the first occurrence, in
insertion order; `seen` accumulates the elements already emitted. -/
def setDedupAux : List String → List String → List String
  | [], _ => []
  | x :: xs, seen =>
    if x ∈ seen then setDedupAux xs seen else x :: setDedupAux xs (x :: seen)

/-- `[...new Set(l)]`. -/
def setDedup (l : List String) : List String :=
  setDedupAux l []

/-- `mergeCarData(target, source)`: nested objects are shallow-merged key
by key with the source winning, `features` is unioned through a `Set`
(first-seen order).  The `safety_ratings` leg of the source loop touches a
key no other part of the pipeline ever writes and is omitted.  The target
always comes from `scrapeCarDetails`' initialised record, so its container
fields are present (`getD` supplies the same empty containers). -/
def mergeCarData (target source : CarData) : CarData :=
  let target :=
    match source.price with
    | some sp => { target with price := some (mergePrice (target.price.getD ⟨none, none, none, none⟩) sp) }
    | none => target
  let target :=
    match source.performance with
    | some sp => { target with performance := some (mergePerformance (target.performance.getD ⟨none, none, none, none⟩) sp) }
    | none => target
  let target :=
    match source.features with
    | some fs => { target with features := some (setDedup (target.features.getD [] ++ fs)) }
    | none => target
  let target :=
    match source.specifications with
    | some sp => { target with specifications := some (mergeSpecifications (target.specifications.getD ⟨none, none, none⟩) sp) }
    | none => target
  let target :=
    match source.dimensions with
    | some sp => { target with dimensions := some (mergeDimensions (target.dimensions.getD ⟨none, none, none, none⟩) sp) }
    | none => target
  match source.fuel_economy with
  | some sp => { target with fuel_economy := some (mergeFuelEconomy (target.fuel_economy.getD ⟨none, none, none⟩) sp) }
  | none => target

/-- The accumulating record `scrapeCarDetails` starts from (string and
timestamp metadata omitted): every container present and empty. -/
def initialCarData (manufacturer model : String) (year : ℤ) : CarData :=
  { manufacturer := some manufacturer
    model := some model
    year := some year
    price := some ⟨none, none, none, none⟩
    performance := some ⟨none, none, none, none⟩
    specifications := some ⟨none, none, none⟩
    features := some []
    dimensions := some ⟨none, none, none, none⟩
    fuel_economy := some ⟨none, none, none⟩ }

/-- Fragment A of spec §8: `{features: ["a"]}`. -/
def fragmentA : CarData :=
  { emptyCar with features := some ["a"] }

/-- Fragment B of spec §8: `{features: ["b", "a"]}`. -/
def fragmentB : CarData :=
  { emptyCar with features := some ["b", "a"] }

end Routes

/-! ## main.js: the per-manufacturer driver loop -/

namespace MainModule

/-- The two loop variables of `main()` the success-rate computation reads. -/
structure LoopState where
  allCars : List CarData
  processedCount : ℕ
deriving Repr

/-- The outcome of one manufacturer iteration: `none` when
`scrapeManufacturer` (or a later step) threw and the `catch` swallowed it,
`some validCars` for the list of records that passed
`dataValidator.validateCarData(car).valid`. -/
def mfrStep (st : LoopState) : Option (List CarData) → LoopState
  | none => st
  | some valid => ⟨st.allCars ++ valid, st.processedCount + valid.length⟩

/-- The `for (const manufacturer of manufacturers)` loop: stop when
`processedCount >= input.maxResults`, otherwise fold the iteration's
outcome into the state. -/
def runManufacturers (maxResults : ℕ) : List (Option (List CarData)) → LoopState → LoopState
  | [], st => st
  | o :: rest, st =>
    if maxResults ≤ st.processedCount then st
    else runManufacturers maxResults rest (mfrStep st o)

/-- `successRate` as computed after the loop:
`processedCount > 0 ? allCars.length / processedCount * 100 : 0`. -/
def successRate (st : LoopState) : ℚ :=
  if 0 < st.processedCount then (st.allCars.length : ℚ) / st.processedCount * 100 else 0

end MainModule

/-! ## Concrete instances used by the claims -/

namespace RateLimiter

/-- A configuration whose base delay sits between the low-success-rate cap
(5000) and the captcha/IP cap (10000). -/
def cfg6000 : Config :=
  { defaultConfig with baseDelay := 6000 }

/-- The signal `{successRate: 0.4}`: no captcha, no IP block, low recent
success rate. -/
def lowSuccessSignal : Conditions :=
  ⟨false, false, some (2 / 5)⟩

/-- A fresh limiter that recorded one request at time 0 (stale by
`now = 100000`). -/
def staleState : State :=
  { init defaultConfig with requestTimestamps := [0] }

/-- A limiter configured with a base delay above the maximum delay. -/
def bigBaseState : State :=
  init { defaultConfig with baseDelay := 20000 }

end RateLimiter

namespace DataValidator

/-- A record violating all four documented numeric bounds at once. -/
def badNumbers : CarData :=
  { emptyCar with
      manufacturer := some "Toyota"
      model := some "Camry"
      year := some 1800
      price := some ⟨some (-5), none, none, none⟩
      performance := some ⟨some 5000, none, none, none⟩
      fuel_economy := some ⟨none, none, some 500⟩ }

end DataValidator

/-! ## Theorems -/

/-- C4 counterexample: starting from a configured base delay of 6000, the
signal `{successRate: 0.4}` makes `adaptiveLimit` set
`baseDelay = min(6000 * 1.5, 5000) = 5000` — the configured base delay
becomes *smaller*, so the claimed unconditional one-way ratchet fails. -/
theorem adaptiveLimit_lowers_baseDelay_cex :
    (RateLimiter.adaptiveLimit RateLimiter.lowSuccessSignal RateLimiter.cfg6000).baseDelay <
      RateLimiter.cfg6000.baseDelay := by
  norm_num [RateLimiter.adaptiveLimit, RateLimiter.lowSuccessSignal, RateLimiter.cfg6000,
    RateLimiter.defaultConfig, min_def]

/-- C4 (amended): `adaptiveLimit` is a one-way ratchet — requests-per-minute
never increases and the base delay never decreases — for every signal
combination, provided the starting configuration has
`0 ≤ baseDelay ≤ 5000` (the low-success-rate cap) and
`requestsPerMinute ≥ 5` (the captcha floor).  The default configuration
satisfies these bounds. -/
theorem adaptiveLimit_ratchet (cfg : RateLimiter.Config) (c : RateLimiter.Conditions)
    (h0 : 0 ≤ cfg.baseDelay) (h1 : cfg.baseDelay ≤ 5000) (h2 : 5 ≤ cfg.requestsPerMinute) :
    (RateLimiter.adaptiveLimit c cfg).requestsPerMinute ≤ cfg.requestsPerMinute ∧
    cfg.baseDelay ≤ (RateLimiter.adaptiveLimit c cfg).baseDelay := by
  obtain ⟨cap, ip, sr⟩ := c
  have hb2 : cfg.baseDelay ≤ min (cfg.baseDelay * 2) 10000 :=
    le_min (by linarith) (by linarith)
  have hb2n : (0 : ℚ) ≤ min (cfg.baseDelay * 2) 10000 :=
    le_min (by linarith) (by norm_num)
  have hrpm : max 5 (cfg.requestsPerMinute / 2) ≤ cfg.requestsPerMinute :=
    max_le h2 (by linarith)
  have h1r : (1 : ℚ) ≤ cfg.requestsPerMinute := by linarith
  simp only [RateLimiter.adaptiveLimit]
  cases cap <;> cases ip <;> rcases sr with _ | r <;> simp <;> try split_ifs
  all_goals try dsimp only
  all_goals try refine ⟨?_, ?_⟩
  all_goals first
    | exact le_refl _
    | exact hrpm
    | exact h1r
    | exact hb2
    | exact le_min (by linarith [hb2, hb2n]) h1
    | exact le_min (by linarith) h1
    | constructor <;> linarith
    | linarith [hb2, hb2n]

/-- C4 witness: the ratchet theorem applied to the default configuration
under a captcha signal. -/
theorem adaptiveLimit_ratchet_witness :
    (RateLimiter.adaptiveLimit ⟨true, false, none⟩ RateLimiter.defaultConfig).requestsPerMinute ≤
      RateLimiter.defaultConfig.requestsPerMinute ∧
    RateLimiter.defaultConfig.baseDelay ≤
      (RateLimiter.adaptiveLimit ⟨true, false, none⟩ RateLimiter.defaultConfig).baseDelay :=
  adaptiveLimit_ratchet RateLimiter.defaultConfig ⟨true, false, none⟩
    (by decide) (by decide) (by decide)

/-- C5 counterexample: `canMakeRequest` is not side-effect-free — with one
stale timestamp recorded at time 0 and the clock at 100000, the call prunes
the sliding window, leaving a different state than it found. -/
theorem canMakeRequest_mutates_state_cex :
    RateLimiter.staleState.requestTimestamps = [0] ∧
    (RateLimiter.canMakeRequest 100000 RateLimiter.staleState).1 = true ∧
    (RateLimiter.canMakeRequest 100000 RateLimiter.staleState).2.requestTimestamps = [] := by
  refine ⟨rfl, ?_, ?_⟩ <;>
    norm_num [RateLimiter.canMakeRequest, RateLimiter.staleState, RateLimiter.init,
      RateLimiter.defaultConfig, RateLimiter.recentTimestamps]

/-- C5 (amended): `canMakeRequest` returns `true` iff the active-request
count is strictly below the concurrency ceiling and the number of
timestamps inside the trailing 60-second window is strictly below the
requests-per-minute ceiling; its only side effect is that it may replace
the timestamp list by its pruned (still-in-window) sublist — the
configuration, active count, failure counter and backoff multiplier are
unchanged. -/
theorem canMakeRequest_spec (now : ℤ) (rl : RateLimiter.State) :
    ((RateLimiter.canMakeRequest now rl).1 = true ↔
      ((rl.activeRequests : ℚ) < rl.config.concurrentRequests ∧
       ((RateLimiter.recentTimestamps now rl.requestTimestamps).length : ℚ) <
         rl.config.requestsPerMinute)) ∧
    (RateLimiter.canMakeRequest now rl).2.config = rl.config ∧
    (RateLimiter.canMakeRequest now rl).2.activeRequests = rl.activeRequests ∧
    (RateLimiter.canMakeRequest now rl).2.consecutiveFailures = rl.consecutiveFailures ∧
    (RateLimiter.canMakeRequest now rl).2.backoffMultiplier = rl.backoffMultiplier ∧
    ((RateLimiter.canMakeRequest now rl).2.requestTimestamps = rl.requestTimestamps ∨
     (RateLimiter.canMakeRequest now rl).2.requestTimestamps =
       RateLimiter.recentTimestamps now rl.requestTimestamps) := by
  unfold RateLimiter.canMakeRequest
  split_ifs with h1 h2
  · refine ⟨?_, rfl, rfl, rfl, rfl, Or.inl rfl⟩
    constructor
    · intro hfalse; exact absurd hfalse (by simp)
    · rintro ⟨hlt, _⟩; exact absurd h1 (not_le.mpr hlt)
  · refine ⟨?_, rfl, rfl, rfl, rfl, Or.inr rfl⟩
    constructor
    · intro hfalse; exact absurd hfalse (by simp)
    · rintro ⟨_, hlt⟩; exact absurd h2 (not_le.mpr hlt)
  · refine ⟨?_, rfl, rfl, rfl, rfl, Or.inr rfl⟩
    constructor
    · intro _; exact ⟨not_le.mp h1, not_le.mp h2⟩
    · intro _; rfl

/-- C5 witness: the characterisation applied to a fresh default limiter at
time 0 — both ceilings are clear, so the call returns `true`. -/
theorem canMakeRequest_spec_witness :
    (RateLimiter.canMakeRequest 0 (RateLimiter.init RateLimiter.defaultConfig)).1 = true :=
  (canMakeRequest_spec 0 (RateLimiter.init RateLimiter.defaultConfig)).1.mpr
    (by norm_num [RateLimiter.init, RateLimiter.defaultConfig, RateLimiter.recentTimestamps])

/-- Helper: the delay returned by `calculateDelay` in uniform closed form
(at zero failures the factor `2^min(0,5)` is 1). -/
theorem calculateDelay_fst (rl : RateLimiter.State) :
    (RateLimiter.calculateDelay rl).1 =
      min (rl.config.baseDelay * 2 ^ (min rl.consecutiveFailures 5)) rl.config.maxDelay := by
  unfold RateLimiter.calculateDelay
  split_ifs with h
  · rfl
  · have h0 : rl.consecutiveFailures = 0 := by omega
    rw [h0]
    norm_num

/-- C7 counterexample: with `baseDelay = 20000`, `maxDelay = 10000` and zero
consecutive failures, `calculateDelay` returns the cap 10000, not the base
delay — the claim's uncapped zero-failure case is wrong. -/
theorem calculateDelay_zero_failures_cex :
    RateLimiter.bigBaseState.consecutiveFailures = 0 ∧
    RateLimiter.bigBaseState.config.baseDelay = 20000 ∧
    (RateLimiter.calculateDelay RateLimiter.bigBaseState).1 <
      RateLimiter.bigBaseState.config.baseDelay := by
  refine ⟨rfl, rfl, ?_⟩
  norm_num [RateLimiter.calculateDelay, RateLimiter.bigBaseState, RateLimiter.init,
    RateLimiter.defaultConfig, min_def]

/-- C7 (amended): `calculateDelay` returns
`min(baseDelay, maxDelay)` at zero consecutive failures and
`min(baseDelay * 2^min(failures, 5), maxDelay)` otherwise; the result never
exceeds the configured maximum delay, and — for a nonnegative base delay —
it is monotonically non-decreasing in the number of consecutive failures. -/
theorem calculateDelay_spec (rl : RateLimiter.State) :
    (rl.consecutiveFailures = 0 →
      (RateLimiter.calculateDelay rl).1 = min rl.config.baseDelay rl.config.maxDelay) ∧
    (0 < rl.consecutiveFailures →
      (RateLimiter.calculateDelay rl).1 =
        min (rl.config.baseDelay * 2 ^ (min rl.consecutiveFailures 5)) rl.config.maxDelay) ∧
    (RateLimiter.calculateDelay rl).1 ≤ rl.config.maxDelay ∧
    (0 ≤ rl.config.baseDelay → ∀ m n : ℕ, m ≤ n →
      (RateLimiter.calculateDelay { rl with consecutiveFailures := m }).1 ≤
      (RateLimiter.calculateDelay { rl with consecutiveFailures := n }).1) := by
  refine ⟨?_, ?_, ?_, ?_⟩
  · intro h
    unfold RateLimiter.calculateDelay
    rw [if_neg (by omega)]
  · intro h
    unfold RateLimiter.calculateDelay
    rw [if_pos h]
  · rw [calculateDelay_fst]
    exact min_le_right _ _
  · intro hb m n hmn
    rw [calculateDelay_fst, calculateDelay_fst]
    refine min_le_min (mul_le_mul_of_nonneg_left ?_ hb) (le_refl _)
    exact pow_le_pow_right₀ one_le_two (min_le_min hmn (le_refl 5))

/-- C7 witness: the specification applied to a defaulted limiter after two
failures — the delay 8000 is between the one-failure delay 4000 and the
cap. -/
theorem calculateDelay_spec_witness :
    (RateLimiter.calculateDelay
        { RateLimiter.init RateLimiter.defaultConfig with consecutiveFailures := 1 }).1 ≤
      (RateLimiter.calculateDelay
        { RateLimiter.init RateLimiter.defaultConfig with consecutiveFailures := 2 }).1 ∧
    (RateLimiter.calculateDelay (RateLimiter.init RateLimiter.defaultConfig)).1 =
      min RateLimiter.defaultConfig.baseDelay RateLimiter.defaultConfig.maxDelay :=
  ⟨((calculateDelay_spec (RateLimiter.init RateLimiter.defaultConfig)).2.2.2
      (by norm_num [RateLimiter.init, RateLimiter.defaultConfig]) 1 2 (by norm_num)),
   (calculateDelay_spec (RateLimiter.init RateLimiter.defaultConfig)).1 rfl⟩

/-- Helper: `canMakeRequest` never changes the active-request count. -/
theorem canMakeRequest_snd_activeRequests (now : ℤ) (rl : RateLimiter.State) :
    (RateLimiter.canMakeRequest now rl).2.activeRequests = rl.activeRequests := by
  unfold RateLimiter.canMakeRequest
  split_ifs <;> rfl

/-- Helper: every limiter operation preserves nonnegativity of the
active-request count. -/
theorem applyOp_activeRequests_nonneg (rl : RateLimiter.State) (op : RateLimiter.Op)
    (h : 0 ≤ rl.activeRequests) : 0 ≤ (RateLimiter.applyOp rl op).activeRequests := by
  cases op with
  | add now => simpa [RateLimiter.applyOp, RateLimiter.addRequestTimestamp] using by omega
  | release => exact le_max_left 0 _
  | check now =>
    simpa [RateLimiter.applyOp, canMakeRequest_snd_activeRequests] using h
  | success => exact h
  | failure => exact h

/-- Helper: nonnegativity of the active-request count is preserved along a
whole operation sequence. -/
theorem runOps_activeRequests_nonneg :
    ∀ (ops : List RateLimiter.Op) (rl : RateLimiter.State),
      0 ≤ rl.activeRequests → 0 ≤ (RateLimiter.runOps ops rl).activeRequests := by
  intro ops
  induction ops with
  | nil => intro rl h; exact h
  | cons op rest ih =>
    intro rl h
    exact ih (RateLimiter.applyOp rl op) (applyOp_activeRequests_nonneg rl op h)

/-- C8: starting from a fresh limiter, `activeRequests` never becomes
negative under any interleaving of admit / release / check / success /
failure operations; whenever `canMakeRequest` returns `true` the active
count is strictly below the configured concurrency ceiling, so an
admission gated by it leaves the count at most the (integral) ceiling. -/
theorem activeRequests_invariant :
    (∀ (cfg : RateLimiter.Config) (ops : List RateLimiter.Op),
      0 ≤ (RateLimiter.runOps ops (RateLimiter.init cfg)).activeRequests) ∧
    (∀ (rl : RateLimiter.State) (now : ℤ),
      (RateLimiter.canMakeRequest now rl).1 = true →
      (rl.activeRequests : ℚ) < rl.config.concurrentRequests) ∧
    (∀ (rl : RateLimiter.State) (now : ℤ) (k : ℤ),
      (RateLimiter.canMakeRequest now rl).1 = true →
      rl.config.concurrentRequests = (k : ℚ) →
      (RateLimiter.addRequestTimestamp now
          (RateLimiter.canMakeRequest now rl).2).activeRequests ≤ k) := by
  have key : ∀ (rl : RateLimiter.State) (now : ℤ),
      (RateLimiter.canMakeRequest now rl).1 = true →
      (rl.activeRequests : ℚ) < rl.config.concurrentRequests := by
    intro rl now h
    unfold RateLimiter.canMakeRequest at h
    split_ifs at h with h1 h2
    exact not_le.mp h1
  refine ⟨?_, key, ?_⟩
  · intro cfg ops
    exact runOps_activeRequests_nonneg ops (RateLimiter.init cfg) (by norm_num [RateLimiter.init])
  · intro rl now k h hk
    have hlt : (rl.activeRequests : ℚ) < (k : ℚ) := hk ▸ key rl now h
    have hzlt : rl.activeRequests < k := by exact_mod_cast hlt
    simp only [RateLimiter.addRequestTimestamp, canMakeRequest_snd_activeRequests]
    omega

/-- C8 witness: a fresh default-configured limiter admits at time 0, and the
gated admission leaves the active count within the ceiling 5. -/
theorem activeRequests_invariant_witness :
    (RateLimiter.canMakeRequest 0 (RateLimiter.init RateLimiter.defaultConfig)).1 = true ∧
    (RateLimiter.addRequestTimestamp 0
        (RateLimiter.canMakeRequest 0 (RateLimiter.init RateLimiter.defaultConfig)).2).activeRequests ≤ 5 := by
  have hcan : (RateLimiter.canMakeRequest 0 (RateLimiter.init RateLimiter.defaultConfig)).1 = true := by
    norm_num [RateLimiter.canMakeRequest, RateLimiter.init, RateLimiter.defaultConfig,
      RateLimiter.recentTimestamps]
  exact ⟨hcan, activeRequests_invariant.2.2 (RateLimiter.init RateLimiter.defaultConfig) 0 5 hcan
    (by norm_num [RateLimiter.init, RateLimiter.defaultConfig])⟩

/-- Helper: appending an event never shrinks the in-window
`request_made` count. -/
theorem recentRequestCount_le_append (now : ℤ) (log : List SecurityMonitor.Event)
    (ev : SecurityMonitor.Event) :
    SecurityMonitor.recentRequestCount now log ≤
      SecurityMonitor.recentRequestCount now (log ++ [ev]) := by
  simp only [SecurityMonitor.recentRequestCount, List.filter_append, List.length_append]
  omega

/-- Helper: once more than 30 `request_made` events sit inside the trailing
minute and the clock does not advance, `checkThresholds` and `logEvent`
diverge — they return `none` for every amount of recursion fuel (joint
induction on the fuel). -/
theorem checkThresholds_logEvent_stuck (now : ℤ) :
    ∀ fuel : ℕ,
      (∀ s : SecurityMonitor.MState,
        30 < SecurityMonitor.recentRequestCount now s.auditLog →
        SecurityMonitor.checkThresholds fuel now s = none) ∧
      (∀ (t : String) (s : SecurityMonitor.MState),
        30 < SecurityMonitor.recentRequestCount now s.auditLog →
        SecurityMonitor.logEvent fuel now t s = none) := by
  intro fuel
  induction fuel with
  | zero => exact ⟨fun s _ => rfl, fun t s _ => rfl⟩
  | succ n ih =>
    constructor
    · intro s h
      unfold SecurityMonitor.checkThresholds
      rw [if_pos h, ih.2 "rate_limit_exceeded" s h]
    · intro t s h
      unfold SecurityMonitor.logEvent
      apply ih.1
      calc 30 < SecurityMonitor.recentRequestCount now s.auditLog := h
        _ ≤ _ := by
          simp only [SecurityMonitor.appendEvent]
          exact recentRequestCount_le_append now s.auditLog _

/-- C1: the 31st `request_made` event inside one simulated minute makes the
`logEvent`/`checkThresholds` interaction diverge instead of terminating
with one extra `rate_limit_exceeded` event per pass: every pass logs the
extra event and immediately re-runs `checkThresholds` on a log that still
holds all 31 in-window `request_made` events, so the embedding returns
`none` (fuel exhausted) for *every* recursion depth — the audit log never
reaches a final state. -/
theorem securityMonitor_rateLimit_cascade_diverges :
    ∀ fuel : ℕ,
      SecurityMonitor.logEvent fuel 1000000 "request_made" SecurityMonitor.thirtyRequests = none := by
  intro fuel
  cases fuel with
  | zero => rfl
  | succ n =>
    unfold SecurityMonitor.logEvent
    apply (checkThresholds_logEvent_stuck 1000000 n).1
    decide

/-- C2 counterexample: the §8 record (manufacturer, model, year,
`price.starting_msrp` only) is valid but scores exactly
15 + 15 + 10 + 20 = 60, which is below the claimed 65. -/
theorem validateCarData_toyotaCamry_score_cex :
    (DataValidator.validateCarData 2026 DataValidator.toyotaCamry).valid = true ∧
    (DataValidator.validateCarData 2026 DataValidator.toyotaCamry).score = 60 ∧
    (DataValidator.validateCarData 2026 DataValidator.toyotaCamry).score < 65 := by
  refine ⟨?_, ?_, ?_⟩ <;> decide

/-- C2 (amended): for any current year of at least 2022 (so that 2024 is
inside the accepted range), the §8 record is valid with score exactly 60 —
the sum of the manufacturer (15), model (15), year (10) and price (20)
completeness weights. -/
theorem validateCarData_toyotaCamry_valid_score60 (currentYear : ℤ)
    (h : 2022 ≤ currentYear) :
    (DataValidator.validateCarData currentYear DataValidator.toyotaCamry).valid = true ∧
    (DataValidator.validateCarData currentYear DataValidator.toyotaCamry).score = 60 := by
  constructor
  · have hcond : ¬((2024 : ℤ) < 1990 ∨ currentYear + 2 < 2024) := by omega
    show (DataValidator.validateErrors currentYear DataValidator.toyotaCamry).isEmpty = true
    simp +decide [DataValidator.validateErrors, DataValidator.toyotaCamry, emptyCar,
      DataValidator.priceMsrp, hcond]
    omega
  · show DataValidator.calculateValidationScore
        (DataValidator.sanitizeRecord DataValidator.toyotaCamry) = 60
    decide

/-- C2 witness: the amended theorem at the current year 2026. -/
theorem validateCarData_toyotaCamry_valid_score60_witness :
    (DataValidator.validateCarData 2026 DataValidator.toyotaCamry).valid = true ∧
    (DataValidator.validateCarData 2026 DataValidator.toyotaCamry).score = 60 :=
  validateCarData_toyotaCamry_valid_score60 2026 (by norm_num)

/-- C3 counterexample: a horsepower of 5000 — far outside the documented
0..2000 bound — yields only a warning: the record stays valid with an empty
errors list, so out-of-bound horsepower is not a hard error. -/
theorem horsepower_out_of_bounds_not_error_cex :
    (DataValidator.validateCarData 2026 DataValidator.toyotaCamryHp5000).valid = true ∧
    (DataValidator.validateCarData 2026 DataValidator.toyotaCamryHp5000).errors = [] ∧
    (DataValidator.validateCarData 2026 DataValidator.toyotaCamryHp5000).warnings =
      ["Horsepower value seems unrealistic"] := by
  refine ⟨?_, ?_, ?_⟩ <;> decide

/-- C3 (amended): for every record, a present (truthy) year outside
1990..currentYear+2 or a present price outside 0..1,000,000 produces a hard
error (an entry in `errors`, making `valid = false`), while a present
horsepower outside 0..2000 or combined fuel economy outside 0..100
produces only the corresponding warning. -/
theorem numeric_bounds_errors_warnings (currentYear : ℤ) (c : CarData) :
    (∀ y : ℤ, c.year = some y → y ≠ 0 → (y < 1990 ∨ currentYear + 2 < y) →
      DataValidator.yearErrMsg currentYear ∈
        (DataValidator.validateCarData currentYear c).errors ∧
      (DataValidator.validateCarData currentYear c).valid = false) ∧
    (∀ p : ℚ, DataValidator.priceMsrp c = some p → p ≠ 0 → (p < 0 ∨ 1000000 < p) →
      "Price must be between 0 and 1,000,000" ∈
        (DataValidator.validateCarData currentYear c).errors ∧
      (DataValidator.validateCarData currentYear c).valid = false) ∧
    (∀ h : ℚ, DataValidator.hpOf c = some h → h ≠ 0 → (h < 0 ∨ 2000 < h) →
      "Horsepower value seems unrealistic" ∈
        (DataValidator.validateCarData currentYear c).warnings) ∧
    (∀ g : ℚ, DataValidator.mpgOf c = some g → g ≠ 0 → (g < 0 ∨ 100 < g) →
      "Fuel economy value seems unrealistic" ∈
        (DataValidator.validateCarData currentYear c).warnings) := by
  have validOf : ∀ s : String, s ∈ DataValidator.validateErrors currentYear c →
      (DataValidator.validateCarData currentYear c).valid = false := by
    intro s hs
    have hne : DataValidator.validateErrors currentYear c ≠ [] := List.ne_nil_of_mem hs
    show (DataValidator.validateErrors currentYear c).isEmpty = false
    simpa [List.isEmpty_iff] using hne
  refine ⟨?_, ?_, ?_, ?_⟩
  · intro y hy hy0 hout
    have hmem : DataValidator.yearErrMsg currentYear ∈
        DataValidator.validateErrors currentYear c := by
      unfold DataValidator.validateErrors
      rw [hy]
      simp [hy0, hout]
    exact ⟨hmem, validOf _ hmem⟩
  · intro p hp hp0 hout
    have hmem : "Price must be between 0 and 1,000,000" ∈
        DataValidator.validateErrors currentYear c := by
      unfold DataValidator.validateErrors
      rw [hp]
      simp [hp0, hout]
    exact ⟨hmem, validOf _ hmem⟩
  · intro hp hhp hhp0 hout
    show "Horsepower value seems unrealistic" ∈ DataValidator.validateWarnings c
    unfold DataValidator.validateWarnings
    rw [hhp]
    simp [hhp0, hout]
  · intro g hg hg0 hout
    show "Fuel economy value seems unrealistic" ∈ DataValidator.validateWarnings c
    unfold DataValidator.validateWarnings
    rw [hg]
    simp [hg0, hout]

/-- C3 witness: the amended theorem applied to a record violating all four
bounds at once (year 1800, price −5, horsepower 5000, combined 500). -/
theorem numeric_bounds_errors_warnings_witness :
    DataValidator.yearErrMsg 2026 ∈
      (DataValidator.validateCarData 2026 DataValidator.badNumbers).errors ∧
    "Price must be between 0 and 1,000,000" ∈
      (DataValidator.validateCarData 2026 DataValidator.badNumbers).errors ∧
    "Horsepower value seems unrealistic" ∈
      (DataValidator.validateCarData 2026 DataValidator.badNumbers).warnings ∧
    "Fuel economy value seems unrealistic" ∈
      (DataValidator.validateCarData 2026 DataValidator.badNumbers).warnings :=
  ⟨((numeric_bounds_errors_warnings 2026 DataValidator.badNumbers).1 1800 rfl
      (by norm_num) (Or.inl (by norm_num))).1,
   ((numeric_bounds_errors_warnings 2026 DataValidator.badNumbers).2.1 (-5) rfl
      (by norm_num) (Or.inl (by norm_num))).1,
   (numeric_bounds_errors_warnings 2026 DataValidator.badNumbers).2.2.1 5000 rfl
      (by norm_num) (Or.inr (by norm_num)),
   (numeric_bounds_errors_warnings 2026 DataValidator.badNumbers).2.2.2 500 rfl
      (by norm_num) (Or.inr (by norm_num))⟩

/-- C6 counterexample: for the record with manufacturer `"<>"`, the first
validation finds a truthy, non-blank manufacturer (no error), but
sanitization strips both characters, so re-validating the sanitized output
reports `Manufacturer is required` — the errors differ, hence
`validateCarData` is not idempotent. -/
theorem validateCarData_not_idempotent_cex :
    (DataValidator.validateCarData 2026 DataValidator.angleManufacturer).errors = [] ∧
    (DataValidator.validateCarData 2026
        (DataValidator.validateCarData 2026 DataValidator.angleManufacturer).data).errors =
      ["Manufacturer is required"] := by
  refine ⟨?_, ?_⟩ <;> decide

/-- C6 (amended): `validateCarData` is idempotent on records the
sanitization pipeline leaves unchanged (in particular on its own output
whenever that output is sanitization-fixed): if `sanitizeRecord c = c`,
re-validating the produced `data` returns the identical result — same
errors, same warnings, same score. -/
theorem validateCarData_idempotent_on_sanitized (currentYear : ℤ) (c : CarData)
    (h : DataValidator.sanitizeRecord c = c) :
    DataValidator.validateCarData currentYear
        (DataValidator.validateCarData currentYear c).data =
      DataValidator.validateCarData currentYear c := by
  have hdata : (DataValidator.validateCarData currentYear c).data = c := h
  rw [hdata]

/-- C6 witness: the §8 record is sanitization-fixed, so validating its
validated data reproduces the result. -/
theorem validateCarData_idempotent_on_sanitized_witness :
    DataValidator.validateCarData 2026
        (DataValidator.validateCarData 2026 DataValidator.toyotaCamry).data =
      DataValidator.validateCarData 2026 DataValidator.toyotaCamry :=
  validateCarData_idempotent_on_sanitized 2026 DataValidator.toyotaCamry (by decide)

/-- C9: merging fragment `{features: ["a"]}` and then `{features: ["b","a"]}`
into the initialised record yields `features = ["a","b"]` — a duplicate-free
union in first-seen order. -/
theorem mergeCarData_features_union :
    (Routes.mergeCarData
        (Routes.mergeCarData (Routes.initialCarData "Toyota" "Camry" 2025) Routes.fragmentA)
        Routes.fragmentB).features = some ["a", "b"] := by
  decide

/-- Helper: the loop maintains `allCars.length = processedCount`. -/
theorem runManufacturers_length_eq :
    ∀ (maxResults : ℕ) (outcomes : List (Option (List CarData))) (st : MainModule.LoopState),
      st.allCars.length = st.processedCount →
      (MainModule.runManufacturers maxResults outcomes st).allCars.length =
        (MainModule.runManufacturers maxResults outcomes st).processedCount := by
  intro maxResults outcomes
  induction outcomes with
  | nil => intro st h; exact h
  | cons o rest ih =>
    intro st h
    unfold MainModule.runManufacturers
    split_ifs with hstop
    · exact h
    · apply ih
      cases o with
      | none => exact h
      | some valid => simp [MainModule.mfrStep, h]

/-- C10: after the manufacturer loop, `allCars.length = processedCount` for
every sequence of per-manufacturer outcomes, so the reported success rate
is 100 whenever at least one record was accepted and 0 otherwise — it can
never be partial. -/
theorem main_loop_success_rate (maxResults : ℕ)
    (outcomes : List (Option (List CarData))) :
    (MainModule.runManufacturers maxResults outcomes ⟨[], 0⟩).allCars.length =
      (MainModule.runManufacturers maxResults outcomes ⟨[], 0⟩).processedCount ∧
    MainModule.successRate (MainModule.runManufacturers maxResults outcomes ⟨[], 0⟩) =
      if (MainModule.runManufacturers maxResults outcomes ⟨[], 0⟩).allCars = [] then 0
      else 100 := by
  have hlen := runManufacturers_length_eq maxResults outcomes ⟨[], 0⟩ rfl
  refine ⟨hlen, ?_⟩
  set st := MainModule.runManufacturers maxResults outcomes ⟨[], 0⟩ with hst
  unfold MainModule.successRate
  rcases Nat.eq_zero_or_pos st.processedCount with hz | hpos
  · rw [if_neg (by omega)]
    have : st.allCars = [] := List.length_eq_zero.mp (by omega)
    rw [if_pos this]
  · rw [if_pos hpos]
    have hne : st.allCars ≠ [] := by
      intro hnil
      rw [hnil] at hlen
      simp at hlen
      omega
    rw [if_neg hne, hlen]
    have : (st.processedCount : ℚ) ≠ 0 := Nat.cast_ne_zero.mpr (by omega)
    field_simp
